import Mathlib

/-!
# Verification of the announcements CRUD handler

Shallow embedding of `src/backend/routers/announcements.py`: a CRUD resource
handler over two document collections (Announcements, Teachers).  The Mongo
collections are modelled as Lean lists of records; `insert_one` assigns the
store identifier from a counter carried in the database state; the current
UTC timestamp `datetime.utcnow().isoformat()` is passed in as an explicit
`now : String` argument.  Each handler returns the (possibly unchanged)
database together with `Except HTTPException result`, mirroring FastAPI's
`raise HTTPException` control flow: an exception leaves the store unchanged.
-/

/-- A BSON-ish value appearing in a returned JSON payload. -/
inductive Value where
  | str (s : String)
  | bool (b : Bool)
deriving DecidableEq, Repr

/-- A JSON/dict payload: ordered key/value pairs, as a Python dict. -/
abbrev Doc := List (String × Value)

/-- A document of the Announcements collection.  The field `_id` is the
store-assigned identifier (Mongo `_id`); the remaining fields are exactly the
keys the handler writes in `create_announcement`. -/
structure Announcement where
  _id : String
  title : String
  message : String
  created_by : String
  created_at : String
  is_active : Bool
deriving DecidableEq, Repr

/-- A document of the Teachers collection: keyed by username (`_id`), with a
display name. -/
structure Teacher where
  _id : String
  display_name : String
deriving DecidableEq, Repr

/-- The database state seen by the router: the two collections, plus the
counter from which the store derives the identifier of the next inserted
announcement (modelling Mongo's ObjectId assignment in `insert_one`). -/
structure Database where
  announcements_collection : List Announcement
  teachers_collection : List Teacher
  nextId : Nat
deriving DecidableEq, Repr

/-- `fastapi.HTTPException`: status code and detail message. -/
structure HTTPException where
  status_code : Nat
  detail : String
deriving DecidableEq, Repr

/-- Status code of an error result, `none` on success. -/
def errorStatus {α : Type} : Except HTTPException α → Option Nat
  | .error e => some e.status_code
  | .ok _ => none

/-- The dict stored for an announcement, with its keys. -/
def Announcement.toDoc (a : Announcement) : Doc :=
  [("_id", .str a._id), ("title", .str a.title), ("message", .str a.message),
   ("created_by", .str a.created_by), ("created_at", .str a.created_at),
   ("is_active", .bool a.is_active)]

/-- `dict.pop(k, None)`: the payload with key `k` removed. -/
def popKey (k : String) (d : Doc) : Doc :=
  d.filter (fun p => !(p.1 == k))

/-- Does an announcement match the `find` query built by `get_announcements`?
`query = {}` when `active_only` is false, `{"is_active": True}` otherwise. -/
def matchesQuery (active_only : Bool) (a : Announcement) : Bool :=
  !active_only || a.is_active

/-- The relation along which `.sort("created_at", -1)` orders documents:
`created_at` descending (newest first, lexicographic on the ISO strings). -/
def createdAtDesc (a b : Announcement) : Prop :=
  b.created_at ≤ a.created_at

instance : DecidableRel createdAtDesc :=
  fun a b => inferInstanceAs (Decidable (b.created_at ≤ a.created_at))

instance : IsTotal Announcement createdAtDesc :=
  ⟨fun a b => (le_total b.created_at a.created_at).imp id id⟩

instance : IsTrans Announcement createdAtDesc :=
  ⟨fun _ _ _ h1 h2 => le_trans h2 h1⟩

/-- `announcements_collection.find(query)`: documents matching the query, in
store order. -/
def findQuery (db : Database) (active_only : Bool) : List Announcement :=
  db.announcements_collection.filter (matchesQuery active_only)

/-- `announcements_collection.find(query).sort("created_at", -1)`: matching
documents ordered by `created_at` descending (stable sort). -/
def findSortDesc (db : Database) (active_only : Bool) : List Announcement :=
  List.insertionSort createdAtDesc (findQuery db active_only)

/-- `GET /announcements`: list announcements, optionally only active ones,
newest first, with the `_id` key popped from each returned dict. -/
def get_announcements (db : Database) (active_only : Bool) : List Doc :=
  (findSortDesc db active_only).map (fun a => popKey "_id" a.toDoc)

/-- `teachers_collection.find_one({"_id": u})`. -/
def teachers_find_one (db : Database) (u : String) : Option Teacher :=
  db.teachers_collection.find? (fun t => t._id == u)

/-- `POST /announcements`: create an announcement.  Requires a non-falsy
`teacher_username` naming an existing teacher; on success inserts one new
document (given the store-assigned `_id`) and returns it, `_id` included. -/
def create_announcement (db : Database) (title message : String)
    (teacher_username : Option String) (is_active : Bool) (now : String) :
    Database × Except HTTPException Announcement :=
  match teacher_username with
  | none => (db, .error ⟨401, "Authentication required to post announcements"⟩)
  | some u =>
    if u.isEmpty then
      (db, .error ⟨401, "Authentication required to post announcements"⟩)
    else
      match teachers_find_one db u with
      | none => (db, .error ⟨401, "Invalid teacher credentials"⟩)
      | some teacher =>
        let announcement : Announcement :=
          { _id := toString db.nextId, title := title, message := message,
            created_by := teacher.display_name, created_at := now,
            is_active := is_active }
        ({ db with
            announcements_collection :=
              db.announcements_collection ++ [announcement],
            nextId := db.nextId + 1 },
         .ok announcement)

/-- The `{"$set": update_doc}` document applied by `update_announcement`:
each of the three optional parameters that was supplied overwrites the
corresponding field, absent parameters leave the field as it was. -/
def applySet (a : Announcement) (is_active : Option Bool)
    (title message : Option String) : Announcement :=
  { a with
    is_active := is_active.getD a.is_active,
    title := title.getD a.title,
    message := message.getD a.message }

/-- `announcements_collection.update_one({"_id": id}, {"$set": ...})`:
rewrites the first document whose `_id` matches, returning the new
collection and the matched count (`0` or `1`). -/
def update_one (l : List Announcement) (announcement_id : String)
    (f : Announcement → Announcement) : List Announcement × Nat :=
  match l with
  | [] => ([], 0)
  | a :: rest =>
    if a._id == announcement_id then (f a :: rest, 1)
    else
      let r := update_one rest announcement_id f
      (a :: r.1, r.2)

/-- `announcements_collection.find_one({"_id": id})`. -/
def announcements_find_one (l : List Announcement) (announcement_id : String) :
    Option Announcement :=
  l.find? (fun a => a._id == announcement_id)

/-- `announcements_collection.delete_one({"_id": id})`: removes the first
document whose `_id` matches, returning the new collection and the deleted
count (`0` or `1`). -/
def delete_one (l : List Announcement) (announcement_id : String) :
    List Announcement × Nat :=
  match l with
  | [] => ([], 0)
  | a :: rest =>
    if a._id == announcement_id then (rest, 1)
    else
      let r := delete_one rest announcement_id
      (a :: r.1, r.2)

/-- `PATCH /announcements/{announcement_id}`: partial update.  Checks the
teacher credential, rejects an empty update document with 400, reports 404
when no document matched, and otherwise returns the freshly re-read updated
document with its `_id` key popped.  The final 500 branch models the
`AttributeError` Python would raise if the re-read returned `None`; it is
unreachable in this sequential model. -/
def update_announcement (db : Database) (announcement_id : String)
    (teacher_username : Option String) (is_active : Option Bool)
    (title message : Option String) :
    Database × Except HTTPException Doc :=
  match teacher_username with
  | none => (db, .error ⟨401, "Authentication required"⟩)
  | some u =>
    if u.isEmpty then (db, .error ⟨401, "Authentication required"⟩)
    else
      match teachers_find_one db u with
      | none => (db, .error ⟨401, "Invalid teacher credentials"⟩)
      | some _teacher =>
        if is_active = none ∧ title = none ∧ message = none then
          (db, .error ⟨400, "No fields to update"⟩)
        else
          let r := update_one db.announcements_collection announcement_id
            (fun a => applySet a is_active title message)
          if r.2 = 0 then (db, .error ⟨404, "Announcement not found"⟩)
          else
            let db' := { db with announcements_collection := r.1 }
            match announcements_find_one db'.announcements_collection
                announcement_id with
            | some updated => (db', .ok (popKey "_id" updated.toDoc))
            | none => (db', .error ⟨500, "Internal Server Error"⟩)

/-- `DELETE /announcements/{announcement_id}`: checks the teacher credential,
physically removes the matching document, reports 404 when none matched, and
returns the success message. -/
def delete_announcement (db : Database) (announcement_id : String)
    (teacher_username : Option String) :
    Database × Except HTTPException String :=
  match teacher_username with
  | none => (db, .error ⟨401, "Authentication required"⟩)
  | some u =>
    if u.isEmpty then (db, .error ⟨401, "Authentication required"⟩)
    else
      match teachers_find_one db u with
      | none => (db, .error ⟨401, "Invalid teacher credentials"⟩)
      | some _teacher =>
        let r := delete_one db.announcements_collection announcement_id
        if r.2 = 0 then (db, .error ⟨404, "Announcement not found"⟩)
        else ({ db with announcements_collection := r.1 },
              .ok "Announcement deleted successfully")

/-- A `teacher_username` value the handlers reject: absent, empty, or naming
no teacher in the Teachers collection. -/
def authFails (db : Database) (teacher_username : Option String) : Prop :=
  teacher_username = none ∨ teacher_username = some "" ∨
    ∃ u, teacher_username = some u ∧ teachers_find_one db u = none

/-! ## Helper lemmas about the collection primitives -/

theorem update_one_append (pre post : List Announcement) (a : Announcement)
    (announcement_id : String) (f : Announcement → Announcement)
    (hpre : ∀ b ∈ pre, b._id ≠ announcement_id) (ha : a._id = announcement_id) :
    update_one (pre ++ a :: post) announcement_id f = (pre ++ f a :: post, 1) := by
  induction pre with
  | nil => simp [update_one, ha]
  | cons b rest ih =>
    have hb : (b._id == announcement_id) = false := by
      simp [hpre b (by simp)]
    simp only [List.cons_append, update_one, hb, Bool.false_eq_true, if_false,
      List.append_eq]
    rw [ih (fun c hc => hpre c (by simp [hc]))]

theorem update_one_no_match (l : List Announcement) (announcement_id : String)
    (f : Announcement → Announcement)
    (h : ∀ b ∈ l, b._id ≠ announcement_id) :
    update_one l announcement_id f = (l, 0) := by
  induction l with
  | nil => rfl
  | cons b rest ih =>
    have hb : (b._id == announcement_id) = false := by
      simp [h b (by simp)]
    simp only [update_one, hb, Bool.false_eq_true, if_false]
    rw [ih (fun c hc => h c (by simp [hc]))]

theorem find_one_append (pre post : List Announcement) (a : Announcement)
    (announcement_id : String)
    (hpre : ∀ b ∈ pre, b._id ≠ announcement_id) (ha : a._id = announcement_id) :
    announcements_find_one (pre ++ a :: post) announcement_id = some a := by
  induction pre with
  | nil => simp [announcements_find_one, List.find?, ha]
  | cons b rest ih =>
    have hb : (b._id == announcement_id) = false := by
      simp [hpre b (by simp)]
    simpa [announcements_find_one, List.find?, hb] using
      ih (fun c hc => hpre c (by simp [hc]))

theorem delete_one_append (pre post : List Announcement) (a : Announcement)
    (announcement_id : String)
    (hpre : ∀ b ∈ pre, b._id ≠ announcement_id) (ha : a._id = announcement_id) :
    delete_one (pre ++ a :: post) announcement_id = (pre ++ post, 1) := by
  induction pre with
  | nil => simp [delete_one, ha]
  | cons b rest ih =>
    have hb : (b._id == announcement_id) = false := by
      simp [hpre b (by simp)]
    simp only [List.cons_append, delete_one, hb, Bool.false_eq_true, if_false,
      List.append_eq]
    rw [ih (fun c hc => hpre c (by simp [hc]))]

theorem delete_one_no_match (l : List Announcement) (announcement_id : String)
    (h : ∀ b ∈ l, b._id ≠ announcement_id) :
    delete_one l announcement_id = (l, 0) := by
  induction l with
  | nil => rfl
  | cons b rest ih =>
    have hb : (b._id == announcement_id) = false := by
      simp [h b (by simp)]
    simp only [delete_one, hb, Bool.false_eq_true, if_false]
    rw [ih (fun c hc => h c (by simp [hc]))]

theorem isEmpty_false_of_ne {u : String} (hu : u ≠ "") : u.isEmpty = false := by
  rcases h : u.isEmpty with _ | _
  · rfl
  · exact absurd ((String.isEmpty_iff u).mp h) hu

theorem popKey_id_toDoc (a : Announcement) :
    popKey "_id" a.toDoc =
      [("title", .str a.title), ("message", .str a.message),
       ("created_by", .str a.created_by), ("created_at", .str a.created_at),
       ("is_active", .bool a.is_active)] := by
  simp [popKey, Announcement.toDoc]

theorem lookup_id_popKey (a : Announcement) :
    List.lookup "_id" (popKey "_id" a.toDoc) = none := by
  rw [popKey_id_toDoc]
  simp [List.lookup]

/-! ## Claims -/

/-- C1: `list(active_only=true)` returns exactly the announcements with
`is_active = true` and `list(active_only=false)` returns every announcement;
in both cases the sequence is ordered by `created_at` descending, and an
empty store yields an empty sequence. -/
theorem spec_C1 (db : Database) :
    (findSortDesc db true).Perm
        (db.announcements_collection.filter (fun a => a.is_active))
    ∧ (findSortDesc db false).Perm db.announcements_collection
    ∧ (∀ active_only, (findSortDesc db active_only).Pairwise createdAtDesc)
    ∧ (∀ active_only, get_announcements db active_only
        = (findSortDesc db active_only).map (fun a => popKey "_id" a.toDoc))
    ∧ (db.announcements_collection = [] →
        ∀ active_only, get_announcements db active_only = []) := by
  refine ⟨?_, ?_, ?_, fun _ => rfl, ?_⟩
  · exact List.perm_insertionSort createdAtDesc
      (db.announcements_collection.filter (fun a => a.is_active))
  · have hq : findQuery db false = db.announcements_collection := by
      have hm : matchesQuery false = fun _ : Announcement => true := rfl
      simp [findQuery, hm]
    show (List.insertionSort createdAtDesc
      (findQuery db false)).Perm db.announcements_collection
    rw [hq]
    exact List.perm_insertionSort createdAtDesc db.announcements_collection
  · intro active_only
    exact List.sorted_insertionSort createdAtDesc (findQuery db active_only)
  · intro h active_only
    simp [get_announcements, findSortDesc, findQuery, h]

/-- C1 witness: on the empty store the listing is empty. -/
theorem spec_C1_witness :
    get_announcements ⟨[], [], 0⟩ true = [] :=
  (spec_C1 ⟨[], [], 0⟩).2.2.2.2 rfl true

/-- C2: `create`, `update` and `delete` with an absent, empty or unknown
`teacher_username` leave the store unchanged and fail with status 401. -/
theorem spec_C2 (db : Database) (tu : Option String) (h : authFails db tu)
    (title message now : String) (is_active : Bool) (announcement_id : String)
    (upd_active : Option Bool) (upd_title upd_message : Option String) :
    ((create_announcement db title message tu is_active now).1 = db
      ∧ errorStatus (create_announcement db title message tu is_active now).2
          = some 401)
    ∧ ((update_announcement db announcement_id tu upd_active upd_title
          upd_message).1 = db
      ∧ errorStatus (update_announcement db announcement_id tu upd_active
          upd_title upd_message).2 = some 401)
    ∧ ((delete_announcement db announcement_id tu).1 = db
      ∧ errorStatus (delete_announcement db announcement_id tu).2
          = some 401) := by
  have hempty : ("" : String).isEmpty = true := rfl
  rcases h with rfl | rfl | ⟨u, rfl, hu⟩
  · exact ⟨⟨rfl, rfl⟩, ⟨rfl, rfl⟩, ⟨rfl, rfl⟩⟩
  · refine ⟨⟨?_, ?_⟩, ⟨?_, ?_⟩, ⟨?_, ?_⟩⟩ <;>
      simp [create_announcement, update_announcement, delete_announcement,
        errorStatus, hempty]
  · rcases he : u.isEmpty with _ | _ <;>
      refine ⟨⟨?_, ?_⟩, ⟨?_, ?_⟩, ⟨?_, ?_⟩⟩ <;>
      simp [create_announcement, update_announcement, delete_announcement,
        errorStatus, he, hu]

/-- C2 witness: creating with `teacher_username = None` on a concrete store
is rejected with 401 and the store is unchanged. -/
theorem spec_C2_witness :
    (create_announcement ⟨[], [⟨"t1", "Ms. J"⟩], 0⟩ "T" "M" none true
        "2025-01-01").1 = ⟨[], [⟨"t1", "Ms. J"⟩], 0⟩
    ∧ errorStatus (create_announcement ⟨[], [⟨"t1", "Ms. J"⟩], 0⟩ "T" "M" none
        true "2025-01-01").2 = some 401 :=
  (spec_C2 ⟨[], [⟨"t1", "Ms. J"⟩], 0⟩ none (Or.inl rfl) "T" "M" "2025-01-01"
    true "x" none none none).1

/-- C3: a successful `create` with a known teacher appends exactly one new
record whose `created_by` is the teacher's `display_name`, whose `created_at`
is the current time string, whose `title`, `message` and `is_active` are the
supplied arguments, and returns that persisted record together with its
store-assigned identifier. -/
theorem spec_C3 (db : Database) (title message u : String) (t : Teacher)
    (hu : u ≠ "") (ht : teachers_find_one db u = some t)
    (is_active : Bool) (now : String) :
    ∃ a : Announcement,
      create_announcement db title message (some u) is_active now =
        ({ db with
            announcements_collection := db.announcements_collection ++ [a],
            nextId := db.nextId + 1 }, .ok a)
      ∧ a.title = title ∧ a.message = message ∧ a.is_active = is_active
      ∧ a.created_by = t.display_name ∧ a.created_at = now
      ∧ a._id = toString db.nextId := by
  refine ⟨⟨toString db.nextId, title, message, t.display_name, now,
    is_active⟩, ?_, rfl, rfl, rfl, rfl, rfl, rfl⟩
  simp [create_announcement, isEmpty_false_of_ne hu, ht]

/-- C3 witness: a concrete successful creation. -/
theorem spec_C3_witness :
    ∃ a : Announcement,
      create_announcement ⟨[], [⟨"t_jones", "Ms. Jones"⟩], 5⟩ "Exam"
          "Math exam Friday" (some "t_jones") true "2025-01-01T00:00:00" =
        (⟨[] ++ [a], [⟨"t_jones", "Ms. Jones"⟩], 5 + 1⟩, .ok a)
      ∧ a.title = "Exam" ∧ a.message = "Math exam Friday" ∧ a.is_active = true
      ∧ a.created_by = "Ms. Jones" ∧ a.created_at = "2025-01-01T00:00:00"
      ∧ a._id = toString 5 :=
  spec_C3 ⟨[], [⟨"t_jones", "Ms. Jones"⟩], 5⟩ "Exam" "Math exam Friday"
    "t_jones" ⟨"t_jones", "Ms. Jones"⟩ (by decide) rfl true "2025-01-01T00:00:00"

/-- C4: a successful partial update changes exactly the supplied fields of
the targeted announcement, keeps every omitted field (and `created_by`,
`created_at`, `_id`) at its prior value, leaves every other announcement and
the rest of the database unchanged, and returns the post-update record (its
store `_id` key popped, as the handler does). -/
theorem spec_C4 (db : Database) (announcement_id u : String) (t : Teacher)
    (hu : u ≠ "") (ht : teachers_find_one db u = some t)
    (is_active : Option Bool) (title message : Option String)
    (hfields : ¬(is_active = none ∧ title = none ∧ message = none))
    (pre post : List Announcement) (a : Announcement)
    (hsplit : db.announcements_collection = pre ++ a :: post)
    (hpre : ∀ b ∈ pre, b._id ≠ announcement_id)
    (ha : a._id = announcement_id) :
    update_announcement db announcement_id (some u) is_active title message =
      ({ db with announcements_collection :=
          pre ++ applySet a is_active title message :: post },
       .ok (popKey "_id" (applySet a is_active title message).toDoc))
    ∧ (applySet a is_active title message).created_by = a.created_by
    ∧ (applySet a is_active title message).created_at = a.created_at
    ∧ (applySet a is_active title message)._id = a._id
    ∧ (applySet a is_active title message).title = title.getD a.title
    ∧ (applySet a is_active title message).message = message.getD a.message
    ∧ (applySet a is_active title message).is_active
        = is_active.getD a.is_active := by
  refine ⟨?_, rfl, rfl, rfl, rfl, rfl, rfl⟩
  have hup := update_one_append pre post a announcement_id
    (fun b => applySet b is_active title message) hpre ha
  have hfind := find_one_append pre post (applySet a is_active title message)
    announcement_id hpre ha
  simp [update_announcement, isEmpty_false_of_ne hu, ht, hfields, hsplit,
    hup, hfind]

/-- C4 witness: a concrete update of only `is_active`. -/
theorem spec_C4_witness :
    update_announcement
        ⟨[⟨"a1", "Exam", "Math", "Ms. J", "2025-01-01", true⟩],
         [⟨"t1", "Ms. J"⟩], 1⟩ "a1" (some "t1") (some false) none none =
      (⟨[] ++ applySet ⟨"a1", "Exam", "Math", "Ms. J", "2025-01-01", true⟩
            (some false) none none :: [],
        [⟨"t1", "Ms. J"⟩], 1⟩,
       .ok (popKey "_id" (applySet
          ⟨"a1", "Exam", "Math", "Ms. J", "2025-01-01", true⟩
          (some false) none none).toDoc))
    ∧ (applySet ⟨"a1", "Exam", "Math", "Ms. J", "2025-01-01", true⟩
        (some false) none none).created_by = "Ms. J"
    ∧ (applySet ⟨"a1", "Exam", "Math", "Ms. J", "2025-01-01", true⟩
        (some false) none none).created_at = "2025-01-01"
    ∧ (applySet ⟨"a1", "Exam", "Math", "Ms. J", "2025-01-01", true⟩
        (some false) none none)._id = "a1"
    ∧ (applySet ⟨"a1", "Exam", "Math", "Ms. J", "2025-01-01", true⟩
        (some false) none none).title = (none : Option String).getD "Exam"
    ∧ (applySet ⟨"a1", "Exam", "Math", "Ms. J", "2025-01-01", true⟩
        (some false) none none).message = (none : Option String).getD "Math"
    ∧ (applySet ⟨"a1", "Exam", "Math", "Ms. J", "2025-01-01", true⟩
        (some false) none none).is_active = (some false).getD true :=
  spec_C4 ⟨[⟨"a1", "Exam", "Math", "Ms. J", "2025-01-01", true⟩],
      [⟨"t1", "Ms. J"⟩], 1⟩ "a1" "t1" ⟨"t1", "Ms. J"⟩ (by decide) rfl
    (some false) none none (by simp) [] []
    ⟨"a1", "Exam", "Math", "Ms. J", "2025-01-01", true⟩ rfl (by simp) rfl

/-- C5: an update with a valid teacher but none of `is_active`, `title`,
`message` supplied fails with 400 and leaves the database unchanged. -/
theorem spec_C5 (db : Database) (announcement_id u : String) (t : Teacher)
    (hu : u ≠ "") (ht : teachers_find_one db u = some t) :
    update_announcement db announcement_id (some u) none none none =
      (db, .error ⟨400, "No fields to update"⟩) := by
  simp [update_announcement, isEmpty_false_of_ne hu, ht]

/-- C5 witness: a concrete empty update is rejected with 400. -/
theorem spec_C5_witness :
    update_announcement ⟨[⟨"a1", "T", "M", "C", "D", true⟩],
        [⟨"t1", "Ms. J"⟩], 1⟩ "a1" (some "t1") none none none =
      (⟨[⟨"a1", "T", "M", "C", "D", true⟩], [⟨"t1", "Ms. J"⟩], 1⟩,
       .error ⟨400, "No fields to update"⟩) :=
  spec_C5 ⟨[⟨"a1", "T", "M", "C", "D", true⟩], [⟨"t1", "Ms. J"⟩], 1⟩ "a1"
    "t1" ⟨"t1", "Ms. J"⟩ (by decide) rfl

/-- C6: an update with a valid teacher, at least one supplied field, and an
id matching no stored announcement fails with 404 and leaves the database
unchanged. -/
theorem spec_C6 (db : Database) (announcement_id u : String) (t : Teacher)
    (hu : u ≠ "") (ht : teachers_find_one db u = some t)
    (is_active : Option Bool) (title message : Option String)
    (hfields : ¬(is_active = none ∧ title = none ∧ message = none))
    (hnone : ∀ b ∈ db.announcements_collection, b._id ≠ announcement_id) :
    update_announcement db announcement_id (some u) is_active title message =
      (db, .error ⟨404, "Announcement not found"⟩) := by
  have hup := update_one_no_match db.announcements_collection announcement_id
    (fun b => applySet b is_active title message) hnone
  simp [update_announcement, isEmpty_false_of_ne hu, ht, hfields, hup]

/-- C6 witness: updating an unknown id on a concrete store yields 404. -/
theorem spec_C6_witness :
    update_announcement ⟨[⟨"a1", "T", "M", "C", "D", true⟩],
        [⟨"t1", "Ms. J"⟩], 1⟩ "zz" (some "t1") (some false) none none =
      (⟨[⟨"a1", "T", "M", "C", "D", true⟩], [⟨"t1", "Ms. J"⟩], 1⟩,
       .error ⟨404, "Announcement not found"⟩) :=
  spec_C6 ⟨[⟨"a1", "T", "M", "C", "D", true⟩], [⟨"t1", "Ms. J"⟩], 1⟩ "zz"
    "t1" ⟨"t1", "Ms. J"⟩ (by decide) rfl (some false) none none (by simp)
    (by decide)

/-- C7: with a valid teacher, deleting an existing id physically removes that
record and returns only the success message, and every later listing of the
resulting store contains no document with the deleted id; deleting an
unknown id fails with 404 and leaves the database unchanged. -/
theorem spec_C7 (db : Database) (announcement_id u : String) (t : Teacher)
    (hu : u ≠ "") (ht : teachers_find_one db u = some t) :
    (∀ pre a post, db.announcements_collection = pre ++ a :: post →
        (∀ b ∈ pre, b._id ≠ announcement_id) → a._id = announcement_id →
        delete_announcement db announcement_id (some u) =
          ({ db with announcements_collection := pre ++ post },
           .ok "Announcement deleted successfully")
        ∧ ((∀ b ∈ pre ++ post, b._id ≠ announcement_id) →
            ∀ active_only b,
              b ∈ findSortDesc
                { db with announcements_collection := pre ++ post }
                active_only →
              b._id ≠ announcement_id))
    ∧ ((∀ b ∈ db.announcements_collection, b._id ≠ announcement_id) →
        delete_announcement db announcement_id (some u) =
          (db, .error ⟨404, "Announcement not found"⟩)) := by
  constructor
  · intro pre a post hsplit hpre ha
    have hdel := delete_one_append pre post a announcement_id hpre ha
    constructor
    · simp [delete_announcement, isEmpty_false_of_ne hu, ht, hsplit, hdel]
    · intro hrest active_only b hb
      have hb2 : b ∈ (pre ++ post).filter (matchesQuery active_only) :=
        (List.mem_insertionSort createdAtDesc).mp hb
      exact hrest b (List.mem_filter.mp hb2).1
  · intro hnone
    have hdel := delete_one_no_match db.announcements_collection
      announcement_id hnone
    simp [delete_announcement, isEmpty_false_of_ne hu, ht, hdel]

/-- C7 witness: a concrete deletion removes the record, and a concrete
deletion of an unknown id yields 404. -/
theorem spec_C7_witness :
    delete_announcement ⟨[⟨"a1", "T", "M", "C", "D", true⟩],
        [⟨"t1", "Ms. J"⟩], 1⟩ "a1" (some "t1") =
      (⟨[] ++ [], [⟨"t1", "Ms. J"⟩], 1⟩,
       .ok "Announcement deleted successfully") :=
  ((spec_C7 ⟨[⟨"a1", "T", "M", "C", "D", true⟩], [⟨"t1", "Ms. J"⟩], 1⟩ "a1"
      "t1" ⟨"t1", "Ms. J"⟩ (by decide) rfl).1 [] ⟨"a1", "T", "M", "C", "D",
      true⟩ [] rfl (by simp) rfl).1

/-- C8 counterexample: on a store holding one announcement with identifier
`"a1"`, the single record returned by `list` has no `_id` key, carries the
identifier under no key at all, and consists of the five remaining fields
only — so the returned record does not carry the announcement's
identifier. -/
theorem spec_C8_counterexample :
    (get_announcements ⟨[⟨"a1", "Exam", "Math", "Ms. J", "2025-01-01",
        true⟩], [], 1⟩ false).map (List.lookup "_id") = [none]
    ∧ get_announcements ⟨[⟨"a1", "Exam", "Math", "Ms. J", "2025-01-01",
        true⟩], [], 1⟩ false =
      [[("title", .str "Exam"), ("message", .str "Math"),
        ("created_by", .str "Ms. J"), ("created_at", .str "2025-01-01"),
        ("is_active", .bool true)]]
    ∧ ∀ p ∈ [("title", Value.str "Exam"), ("message", Value.str "Math"),
        ("created_by", Value.str "Ms. J"),
        ("created_at", Value.str "2025-01-01"),
        ("is_active", Value.bool true)], p.2 ≠ Value.str "a1" := by
  decide

/-- C8 (amended): each record returned by `list` has the store identifier
`_id` stripped — it carries no identifier — and retains exactly the five
remaining fields (`title`, `message`, `created_by`, `created_at`,
`is_active`) of a stored announcement matching the filter. -/
theorem spec_C8 (db : Database) (active_only : Bool) (d : Doc)
    (hd : d ∈ get_announcements db active_only) :
    List.lookup "_id" d = none
    ∧ ∃ a ∈ db.announcements_collection, matchesQuery active_only a = true
        ∧ d = [("title", .str a.title), ("message", .str a.message),
               ("created_by", .str a.created_by),
               ("created_at", .str a.created_at),
               ("is_active", .bool a.is_active)] := by
  simp only [get_announcements] at hd
  rcases List.mem_map.mp hd with ⟨a, ha, rfl⟩
  have ha2 := (List.mem_insertionSort createdAtDesc).mp ha
  have ha3 := List.mem_filter.mp ha2
  exact ⟨lookup_id_popKey a, a, ha3.1, ha3.2, popKey_id_toDoc a⟩

/-- C8 witness: the amended claim at a concrete store and record. -/
theorem spec_C8_witness :
    List.lookup "_id" [("title", Value.str "T"), ("message", Value.str "M"),
      ("created_by", Value.str "C"), ("created_at", Value.str "D"),
      ("is_active", Value.bool true)] = none
    ∧ ∃ a ∈ [(⟨"b1", "T", "M", "C", "D", true⟩ : Announcement)],
        matchesQuery false a = true
        ∧ [("title", Value.str "T"), ("message", Value.str "M"),
           ("created_by", Value.str "C"), ("created_at", Value.str "D"),
           ("is_active", Value.bool true)] =
          [("title", .str a.title), ("message", .str a.message),
           ("created_by", .str a.created_by), ("created_at", .str a.created_at),
           ("is_active", .bool a.is_active)] :=
  spec_C8 ⟨[⟨"b1", "T", "M", "C", "D", true⟩], [], 0⟩ false
    [("title", Value.str "T"), ("message", Value.str "M"),
     ("created_by", Value.str "C"), ("created_at", Value.str "D"),
     ("is_active", Value.bool true)] (by decide)

/-- C9 counterexample: with a known teacher, `create` with `title = ""`
persists a record whose title is empty, and `update` with `title = ""` sets
the stored title to the empty string — so title non-emptiness is not an
invariant of the store. -/
theorem spec_C9_counterexample :
    (create_announcement ⟨[], [⟨"t9", "Mr. P"⟩], 0⟩ "" "Body" (some "t9")
        true "2025-02-02").1.announcements_collection.map Announcement.title
      = [""]
    ∧ (update_announcement ⟨[⟨"x", "Old", "m", "c", "d", true⟩],
        [⟨"t9", "Mr. P"⟩], 1⟩ "x" (some "t9") none (some "")
        none).1.announcements_collection.map Announcement.title = [""] := by
  decide

/-- C9 (amended): the handlers enforce no constraint on `title`: a
successful `create` persists exactly the supplied title, empty or not, and
the update document of `update` overwrites `title` with exactly the supplied
string, empty or not. -/
theorem spec_C9 (db : Database) (u : String) (t : Teacher) (hu : u ≠ "")
    (ht : teachers_find_one db u = some t) (title message now : String)
    (is_active : Bool) :
    (∃ a, (create_announcement db title message (some u) is_active
          now).1.announcements_collection
        = db.announcements_collection ++ [a] ∧ a.title = title)
    ∧ ∀ (b : Announcement) (ia : Option Bool) (me : Option String)
        (s : String), (applySet b ia (some s) me).title = s := by
  refine ⟨⟨⟨toString db.nextId, title, message, t.display_name, now,
    is_active⟩, ?_, rfl⟩, fun _ _ _ _ => rfl⟩
  simp [create_announcement, isEmpty_false_of_ne hu, ht]

/-- C9 witness: a concrete creation with an empty title persists it. -/
theorem spec_C9_witness :
    ∃ a, (create_announcement ⟨[], [⟨"t9", "Mr. P"⟩], 0⟩ "" "Body"
        (some "t9") true "2025-02-02").1.announcements_collection
      = [] ++ [a] ∧ a.title = "" :=
  (spec_C9 ⟨[], [⟨"t9", "Mr. P"⟩], 0⟩ "t9" ⟨"t9", "Mr. P"⟩ (by decide) rfl
    "" "Body" "2025-02-02" true).1

/-- C10: the error checks run in the order 401, then 400, then 404: an
`update` with a rejected credential yields 401 whatever the id and fields;
an `update` with a valid teacher, no supplied fields and an unknown id
yields 400, not 404; a `delete` with a rejected credential yields 401 even
for an unknown id. -/
theorem spec_C10 (db : Database) :
    (∀ (announcement_id : String) (tu : Option String)
        (is_active : Option Bool) (title message : Option String),
        authFails db tu →
        (update_announcement db announcement_id tu is_active title
            message).1 = db
        ∧ errorStatus (update_announcement db announcement_id tu is_active
            title message).2 = some 401)
    ∧ (∀ (announcement_id u : String) (t : Teacher), u ≠ "" →
        teachers_find_one db u = some t →
        (∀ b ∈ db.announcements_collection, b._id ≠ announcement_id) →
        update_announcement db announcement_id (some u) none none none =
          (db, .error ⟨400, "No fields to update"⟩))
    ∧ (∀ (announcement_id : String) (tu : Option String), authFails db tu →
        (delete_announcement db announcement_id tu).1 = db
        ∧ errorStatus (delete_announcement db announcement_id tu).2
            = some 401) := by
  have hempty : ("" : String).isEmpty = true := rfl
  refine ⟨?_, ?_, ?_⟩
  · intro announcement_id tu is_active title message h
    rcases h with rfl | rfl | ⟨u, rfl, hu⟩
    · exact ⟨rfl, rfl⟩
    · constructor <;> simp [update_announcement, errorStatus, hempty]
    · rcases he : u.isEmpty with _ | _ <;> constructor <;>
        simp [update_announcement, errorStatus, he, hu]
  · intro announcement_id u t hu ht hnone
    simp [update_announcement, isEmpty_false_of_ne hu, ht]
  · intro announcement_id tu h
    rcases h with rfl | rfl | ⟨u, rfl, hu⟩
    · exact ⟨rfl, rfl⟩
    · constructor <;> simp [delete_announcement, errorStatus, hempty]
    · rcases he : u.isEmpty with _ | _ <;> constructor <;>
        simp [delete_announcement, errorStatus, he, hu]

/-- C10 witness: on a concrete store, an empty update by a valid teacher of
an unknown id is rejected with 400 (not 404). -/
theorem spec_C10_witness :
    update_announcement ⟨[], [⟨"t1", "Ms. J"⟩], 0⟩ "zz" (some "t1") none
        none none =
      (⟨[], [⟨"t1", "Ms. J"⟩], 0⟩, .error ⟨400, "No fields to update"⟩) :=
  (spec_C10 ⟨[], [⟨"t1", "Ms. J"⟩], 0⟩).2.1 "zz" "t1" ⟨"t1", "Ms. J"⟩
    (by decide) rfl (by simp)
